import Mathlib

/-!
# cw-agent: health state, health endpoints and the metrics recording surface

A shallow embedding of `internal/server/health.go` and
`internal/metrics/metrics.go`, followed by the properties proved about them.

* Package-level variables become fields of an explicit state record that every
  operation takes and returns.
* `time.Time` is a count of nanoseconds on one time line; every `time.Now()`
  in the source is a clock reading passed in by the caller.
* A `float64` value is the rational it stands for (infinities and NaN are
  outside the model); the conversion `float64(n)` of an `int` rounds to the
  nearest value with a 53-bit significand, ties to even.
-/

set_option autoImplicit false

namespace CwAgent

/-! ## Label-indexed children and Go maps -/

/-- A Go `map[K]V`, also used for the lazily created children of a metric
vector: a list of key/value pairs with at most one pair a key. -/
abbrev Assoc (κ β : Type) := List (κ × β)

/-- Map read `m[k]` with its presence flag. -/
def Assoc.get {κ β : Type} [DecidableEq κ] : Assoc κ β → κ → Option β
  | [], _ => none
  | (k', v') :: rest, k => if k' = k then some v' else Assoc.get rest k

/-- Map write `m[k] = v`: overwrite the entry when it exists, add it otherwise. -/
def Assoc.set {κ β : Type} [DecidableEq κ] : Assoc κ β → κ → β → Assoc κ β
  | [], k, v => [(k, v)]
  | (k', v') :: rest, k, v =>
      if k' = k then (k', v) :: rest else (k', v') :: Assoc.set rest k v

/-- The keys of a map. -/
def Assoc.keys {κ β : Type} (m : Assoc κ β) : List κ := m.map Prod.fst

/-! ## Time -/

/-- A `time.Time`: nanoseconds on a single time line whose origin is the zero
`time.Time{}`. -/
abbrev Time := Int

/-- A `time.Duration`: an int64 count of nanoseconds. -/
abbrev Duration := Int

def minDuration : Duration := -(2 ^ 63)
def maxDuration : Duration := 2 ^ 63 - 1

def Nanosecond : Duration := 1
def Microsecond : Duration := 1000 * Nanosecond
def Millisecond : Duration := 1000 * Microsecond
def Second : Duration := 1000 * Millisecond
def Minute : Duration := 60 * Second

/-- `t.Sub(u)`: the difference `t - u`, saturated to the int64 range of a
`Duration`. -/
def Time.Sub (t u : Time) : Duration :=
  if t - u > maxDuration then maxDuration
  else if t - u < minDuration then minDuration
  else t - u

/-- `time.Since(t)` evaluated when the clock reads `now`. -/
def Since (now t : Time) : Duration := Time.Sub now t

/-! ## Health state (`internal/server/health.go`) -/

/-- The package variables `ready`, `lastScan`, `lastSync`. An `atomic.Value`
that was never stored to loads `nil`, here `none`; only `time.Time` values are
ever stored. -/
structure HealthState where
  ready : Bool
  lastScan : Option Time
  lastSync : Option Time
  deriving DecidableEq, Repr

/-- The state at process start: the zero values of the three variables. -/
def HealthState.init : HealthState :=
  { ready := false, lastScan := none, lastSync := none }

/-- `SetReady(r)`: `ready.Store(r)`. -/
def SetReady (s : HealthState) (r : Bool) : HealthState :=
  { s with ready := r }

/-- `RecordScan()`: `lastScan.Store(time.Now())`. -/
def RecordScan (s : HealthState) (now : Time) : HealthState :=
  { s with lastScan := some now }

/-- `RecordSync()`: `lastSync.Store(time.Now())`. -/
def RecordSync (s : HealthState) (now : Time) : HealthState :=
  { s with lastSync := some now }

/-- The checked type assertion `v.(time.Time)` on a loaded `atomic.Value`: the
stored time and `true`, or the zero time and `false` for `nil`. -/
def assertTime (v : Option Time) : Time × Bool :=
  match v with
  | none => (0, false)
  | some t => (t, true)

/-- `GetLastScan()`. -/
def GetLastScan (s : HealthState) : Time × Bool :=
  match s.lastScan with
  | none => (0, false)
  | some t => assertTime (some t)

/-- `GetLastSync()`. -/
def GetLastSync (s : HealthState) : Time × Bool :=
  match s.lastSync with
  | none => (0, false)
  | some t => assertTime (some t)

/-! ## Health endpoints -/

/-- A value of a JSON response object: a string literal, or a time rendered
with `Format(time.RFC3339)` (after `.UTC()` when `utc` is set). -/
inductive Value where
  | str (s : String)
  | rfc3339 (t : Time) (utc : Bool)
  deriving DecidableEq, Repr

/-- What a handler wrote: the status code, the `Content-Type` header and the
object handed to `writeJSON`. -/
structure Response where
  status : Nat
  contentType : String
  body : Assoc String Value
  deriving DecidableEq, Repr

def StatusOK : Nat := 200
def StatusServiceUnavailable : Nat := 503

/-- `healthzHandler`; `stamp` is the clock reading used for the timestamp. -/
def healthzHandler (stamp : Time) : Response :=
  { status := StatusOK
    contentType := "application/json"
    body := [("status", .str "ok"), ("timestamp", .rfc3339 stamp true)] }

/-- `readyzHandler`. -/
def readyzHandler (s : HealthState) (stamp : Time) : Response :=
  if !s.ready then
    { status := StatusServiceUnavailable
      contentType := "application/json"
      body := [("status", .str "not ready"),
               ("reason", .str "agent initializing"),
               ("timestamp", .rfc3339 stamp true)] }
  else
    { status := StatusOK
      contentType := "application/json"
      body := [("status", .str "ready"), ("timestamp", .rfc3339 stamp true)] }

/-- `livezHandler`; `now` is the clock reading taken by `time.Since`, `stamp`
the later one used for the timestamp. -/
def livezHandler (s : HealthState) (now stamp : Time) : Response :=
  let (ls, ok) := assertTime s.lastScan
  if !ok || decide (Since now ls > 10 * Minute) then
    let response : Assoc String Value :=
      [("status", .str "unhealthy"),
       ("reason", .str "no recent scans"),
       ("timestamp", .rfc3339 stamp true)]
    let response := if ok then response.set "last_scan" (.rfc3339 ls false) else response
    { status := StatusServiceUnavailable
      contentType := "application/json"
      body := response }
  else
    let response : Assoc String Value :=
      [("status", .str "healthy"),
       ("timestamp", .rfc3339 stamp true),
       ("last_scan", .rfc3339 ls false)]
    let response :=
      match assertTime s.lastSync with
      | (lsy, true) => response.set "last_sync" (.rfc3339 lsy false)
      | (_, false) => response
    { status := StatusOK
      contentType := "application/json"
      body := response }

/-- One call on the health state, with the clock reading it takes. -/
inductive HealthOp where
  | setReady (r : Bool)
  | recordScan (now : Time)
  | recordSync (now : Time)
  deriving DecidableEq, Repr

/-- The effect of one call. -/
def HealthOp.apply (s : HealthState) : HealthOp → HealthState
  | .setReady r => SetReady s r
  | .recordScan now => RecordScan s now
  | .recordSync now => RecordSync s now

/-- The state after a sequence of calls, first call first. -/
def HealthState.run (s : HealthState) (ops : List HealthOp) : HealthState :=
  ops.foldl HealthOp.apply s

/-- The argument of the last `SetReady` call of a sequence, if there is one. -/
def lastSetReady : List HealthOp → Option Bool
  | [] => none
  | op :: rest =>
      match lastSetReady rest with
      | some r => some r
      | none =>
          match op with
          | .setReady r => some r
          | _ => none

/-! ## Metric instruments

The instrument types come from the Prometheus client library, which is not part
of the repository; they are modelled after the data model of the specification
and the documented behaviour of the library. -/

/-- A `float64` sample value: the rational it stands for. -/
abbrev Float64 := ℚ

/-- The number of low bits a 53-bit significand cannot hold: how often `n` is
halved until it is below `2 ^ 53`. The first argument bounds the halvings; `n`
itself is always enough. -/
def droppedBits : Nat → Nat → Nat
  | 0, _ => 0
  | fuel + 1, n => if n < 2 ^ 53 then 0 else droppedBits fuel (n / 2) + 1

/-- The magnitude of `float64(n)` for a natural `n`: `n` rounded to the nearest
multiple of `2 ^ e`, `e` the number of dropped bits, a tie going to the even
significand. -/
def roundToFloat64 (n : Nat) : Nat :=
  let e := droppedBits n n
  let q := n / 2 ^ e
  let r := n % 2 ^ e
  if 2 * r > 2 ^ e ∨ (2 * r = 2 ^ e ∧ q % 2 = 1) then (q + 1) * 2 ^ e else q * 2 ^ e

/-- The Go conversion `float64(n)` of an `int`: the nearest float64, which is
an integer again and is returned as one. It is `n` itself up to `2 ^ 53` in
magnitude; no 64-bit `int` overflows a float64. -/
def float64OfInt (n : Int) : Int :=
  if n < 0 then -(roundToFloat64 n.natAbs : Int) else (roundToFloat64 n.natAbs : Int)

/-- Modelled from the spec: the Counter instrument (the library type
`prometheus.Counter` is not under src/). "Monotonically non-decreasing
accumulator ... only increments; never decreases": the state is the accumulated
value. -/
structure Counter where
  value : Float64
  deriving DecidableEq, Repr

/-- Modelled from the spec: `Counter.Inc()` of the client library, "only
increments": add one. -/
def Counter.Inc (c : Counter) : Counter := { value := c.value + 1 }

/-- Modelled from the spec: `Counter.Add(v)` of the client library. "Only
increments; never decreases": a non-negative `v` is added; on `v < 0` the
library panics ("counter cannot decrease in value") before it touches the
value, which is `none` here. -/
def Counter.Add (c : Counter) (v : Float64) : Option Counter :=
  if v < 0 then none else some { value := c.value + v }

/-- Modelled from the spec: the Gauge instrument (`prometheus.Gauge` is not
under src/). "Last-set numeric value ... overwritten on each update". -/
structure Gauge where
  value : Float64
  deriving DecidableEq, Repr

/-- Modelled from the spec: `Gauge.Set(v)` of the client library, "overwritten
on each update". -/
def Gauge.Set (_g : Gauge) (v : Float64) : Gauge := { value := v }

/-- Modelled from the spec: the Histogram instrument (`prometheus.Histogram` is
not under src/). "Distribution of observed durations into predefined bucket
boundaries ... supports only observation (append a sample), never removal":
the bucket boundaries and the samples observed so far, oldest first. -/
structure Histogram where
  upperBounds : List Float64
  samples : List Float64
  deriving DecidableEq, Repr

/-- Modelled from the spec: `Histogram.Observe(v)` of the client library,
"append a sample". -/
def Histogram.Observe (h : Histogram) (v : Float64) : Histogram :=
  { h with samples := h.samples ++ [v] }

/-- The sample count a histogram exposes. -/
def Histogram.count (h : Histogram) : Nat := h.samples.length

/-- The sample sum a histogram exposes. -/
def Histogram.sum (h : Histogram) : Float64 := h.samples.sum

/-- The cumulative count of the bucket with upper bound `le`. -/
def Histogram.bucket (h : Histogram) (le : Float64) : Nat :=
  (h.samples.filter (fun v => decide (v ≤ le))).length

/-- `prometheus.ExponentialBuckets(start, factor, count)`. -/
def ExponentialBuckets (start factor : Float64) (count : Nat) : List Float64 :=
  (List.range count).map (fun i => start * factor ^ i)

/-- `prometheus.DefBuckets`. -/
def DefBuckets : List Float64 :=
  [5 / 1000, 1 / 100, 25 / 1000, 5 / 100, 1 / 10, 25 / 100, 5 / 10, 1, 25 / 10, 5, 10]

/-- A `CounterVec` with label names of shape `κ`: the children created so far.
"Label sets are created lazily on first use ... and persist". -/
abbrev CounterVec (κ : Type) := Assoc κ Counter

/-- A `GaugeVec` with label names of shape `κ`. -/
abbrev GaugeVec (κ : Type) := Assoc κ Gauge

/-- A `HistogramVec` with label names of shape `κ`: the bucket boundaries every
child is created with, and the children created so far. -/
structure HistogramVec (κ : Type) where
  upperBounds : List Float64
  children : Assoc κ Histogram
  deriving DecidableEq, Repr

/-- Modelled from the spec: `WithLabelValues(k)` on a counter vector of the
client library, "created lazily on first use": the child for `k`, a fresh
counter at zero when there is none yet. -/
def CounterVec.WithLabelValues {κ : Type} [DecidableEq κ] (v : CounterVec κ) (k : κ) :
    Counter :=
  (Assoc.get v k).getD { value := 0 }

/-- Modelled from the spec: `WithLabelValues(k)` on a gauge vector of the
client library; a fresh gauge reads zero. -/
def GaugeVec.WithLabelValues {κ : Type} [DecidableEq κ] (v : GaugeVec κ) (k : κ) : Gauge :=
  (Assoc.get v k).getD { value := 0 }

/-- Modelled from the spec: `WithLabelValues(k)` on a histogram vector of the
client library; a fresh histogram has the buckets of the vector and no
sample. -/
def HistogramVec.WithLabelValues {κ : Type} [DecidableEq κ] (v : HistogramVec κ) (k : κ) :
    Histogram :=
  (Assoc.get v.children k).getD { upperBounds := v.upperBounds, samples := [] }

/-- `v.WithLabelValues(k).Inc()`. -/
def CounterVec.inc {κ : Type} [DecidableEq κ] (v : CounterVec κ) (k : κ) : CounterVec κ :=
  Assoc.set v k (v.WithLabelValues k).Inc

/-- `v.WithLabelValues(k).Set(x)`. -/
def GaugeVec.set {κ : Type} [DecidableEq κ] (v : GaugeVec κ) (k : κ) (x : Float64) :
    GaugeVec κ :=
  Assoc.set v k ((v.WithLabelValues k).Set x)

/-- `v.WithLabelValues(k).Observe(x)`. -/
def HistogramVec.observe {κ : Type} [DecidableEq κ] (v : HistogramVec κ) (k : κ)
    (x : Float64) : HistogramVec κ :=
  { v with children := Assoc.set v.children k ((v.WithLabelValues k).Observe x) }

/-! ## The metrics registry (`internal/metrics/metrics.go`) -/

/-- The package-level instruments. Label shapes: `(hostname, port)` for the
certificate gauges, `status` for the attempt counters, `hostname` for the scan
duration histogram, `(version, name, agent_id)` for the agent info gauge. -/
structure Registry where
  CertDaysUntilExpiry : GaugeVec (String × String)
  CertValid : GaugeVec (String × String)
  CertChainValid : GaugeVec (String × String)
  CertExpiryTimestamp : GaugeVec (String × String)
  ScanTotal : CounterVec String
  ScanDurationSeconds : HistogramVec String
  SyncTotal : CounterVec String
  SyncDurationSeconds : Histogram
  SyncCertsCreated : Counter
  SyncCertsUpdated : Counter
  SyncCertsOrphaned : Counter
  HeartbeatTotal : CounterVec String
  HeartbeatDurationSeconds : Histogram
  AgentInfo : GaugeVec (String × String × String)
  CertificatesConfigured : Gauge
  AgentUptime : Counter
  deriving DecidableEq, Repr

/-- The registry as the `var` block creates it: no children, every value zero,
no samples. -/
def Registry.init : Registry :=
  { CertDaysUntilExpiry := []
    CertValid := []
    CertChainValid := []
    CertExpiryTimestamp := []
    ScanTotal := []
    ScanDurationSeconds := { upperBounds := ExponentialBuckets (1 / 10) 2 10, children := [] }
    SyncTotal := []
    SyncDurationSeconds := { upperBounds := DefBuckets, samples := [] }
    SyncCertsCreated := { value := 0 }
    SyncCertsUpdated := { value := 0 }
    SyncCertsOrphaned := { value := 0 }
    HeartbeatTotal := []
    HeartbeatDurationSeconds := { upperBounds := DefBuckets, samples := [] }
    AgentInfo := []
    CertificatesConfigured := { value := 0 }
    AgentUptime := { value := 0 } }

/-- How a recording call ended, with the registry it left behind: it returned,
or it panicked part-way (the registry is then the one at the panic). -/
inductive Outcome where
  | returned (m : Registry)
  | panicked (m : Registry)
  deriving DecidableEq, Repr

/-- The registry a call left behind. -/
def Outcome.state : Outcome → Registry
  | .returned m => m
  | .panicked m => m

/-- `RecordCertificateMetrics`. -/
def RecordCertificateMetrics (m : Registry) (hostname port : String)
    (daysUntilExpiry expiryTimestamp : Float64) (valid chainValid : Bool) : Registry :=
  let m := { m with CertDaysUntilExpiry := m.CertDaysUntilExpiry.set (hostname, port) daysUntilExpiry }
  let m := { m with CertExpiryTimestamp := m.CertExpiryTimestamp.set (hostname, port) expiryTimestamp }
  let m :=
    if valid then { m with CertValid := m.CertValid.set (hostname, port) 1 }
    else { m with CertValid := m.CertValid.set (hostname, port) 0 }
  if chainValid then { m with CertChainValid := m.CertChainValid.set (hostname, port) 1 }
  else { m with CertChainValid := m.CertChainValid.set (hostname, port) 0 }

/-- `RecordScanSuccess`. -/
def RecordScanSuccess (m : Registry) (hostname : String) (duration : Float64) : Registry :=
  let m := { m with ScanTotal := m.ScanTotal.inc "success" }
  { m with ScanDurationSeconds := m.ScanDurationSeconds.observe hostname duration }

/-- `RecordScanFailure`. -/
def RecordScanFailure (m : Registry) (hostname : String) (duration : Float64) : Registry :=
  let m := { m with ScanTotal := m.ScanTotal.inc "failure" }
  { m with ScanDurationSeconds := m.ScanDurationSeconds.observe hostname duration }

/-- `RecordSyncSuccess`. The three `Add` calls run in order; the first one given
a negative count panics and the later ones do not run. -/
def RecordSyncSuccess (m : Registry) (duration : Float64) (created updated orphaned : Int) :
    Outcome :=
  let m := { m with SyncTotal := m.SyncTotal.inc "success" }
  let m := { m with SyncDurationSeconds := m.SyncDurationSeconds.Observe duration }
  match m.SyncCertsCreated.Add (float64OfInt created : Float64) with
  | none => .panicked m
  | some c =>
    let m := { m with SyncCertsCreated := c }
    match m.SyncCertsUpdated.Add (float64OfInt updated : Float64) with
    | none => .panicked m
    | some c =>
      let m := { m with SyncCertsUpdated := c }
      match m.SyncCertsOrphaned.Add (float64OfInt orphaned : Float64) with
      | none => .panicked m
      | some c => .returned { m with SyncCertsOrphaned := c }

/-- `RecordSyncFailure`. -/
def RecordSyncFailure (m : Registry) (duration : Float64) : Registry :=
  let m := { m with SyncTotal := m.SyncTotal.inc "failure" }
  { m with SyncDurationSeconds := m.SyncDurationSeconds.Observe duration }

/-- `RecordHeartbeatSuccess`. -/
def RecordHeartbeatSuccess (m : Registry) (duration : Float64) : Registry :=
  let m := { m with HeartbeatTotal := m.HeartbeatTotal.inc "success" }
  { m with HeartbeatDurationSeconds := m.HeartbeatDurationSeconds.Observe duration }

/-- `RecordHeartbeatFailure`. -/
def RecordHeartbeatFailure (m : Registry) (duration : Float64) : Registry :=
  let m := { m with HeartbeatTotal := m.HeartbeatTotal.inc "failure" }
  { m with HeartbeatDurationSeconds := m.HeartbeatDurationSeconds.Observe duration }

/-- `SetAgentInfo`. -/
def SetAgentInfo (m : Registry) (version name agentID : String) : Registry :=
  { m with AgentInfo := m.AgentInfo.set (version, name, agentID) 1 }

/-- `SetCertificatesConfigured`. -/
def SetCertificatesConfigured (m : Registry) (count : Int) : Registry :=
  { m with CertificatesConfigured := m.CertificatesConfigured.Set (float64OfInt count : Float64) }

/-- One call of the recording surface with its arguments. -/
inductive MetricsOp where
  | recordCertificateMetrics (hostname port : String) (daysUntilExpiry expiryTimestamp : Float64)
      (valid chainValid : Bool)
  | recordScanSuccess (hostname : String) (duration : Float64)
  | recordScanFailure (hostname : String) (duration : Float64)
  | recordSyncSuccess (duration : Float64) (created updated orphaned : Int)
  | recordSyncFailure (duration : Float64)
  | recordHeartbeatSuccess (duration : Float64)
  | recordHeartbeatFailure (duration : Float64)
  | setAgentInfo (version name agentID : String)
  | setCertificatesConfigured (count : Int)
  deriving DecidableEq, Repr

/-- The effect of one call. -/
def MetricsOp.apply (m : Registry) : MetricsOp → Outcome
  | .recordCertificateMetrics h p d e v c => .returned (RecordCertificateMetrics m h p d e v c)
  | .recordScanSuccess h d => .returned (RecordScanSuccess m h d)
  | .recordScanFailure h d => .returned (RecordScanFailure m h d)
  | .recordSyncSuccess d c u o => RecordSyncSuccess m d c u o
  | .recordSyncFailure d => .returned (RecordSyncFailure m d)
  | .recordHeartbeatSuccess d => .returned (RecordHeartbeatSuccess m d)
  | .recordHeartbeatFailure d => .returned (RecordHeartbeatFailure m d)
  | .setAgentInfo v n a => .returned (SetAgentInfo m v n a)
  | .setCertificatesConfigured n => .returned (SetCertificatesConfigured m n)

/-- The registries seen along a sequence of calls, first call first: the one
before the first call, then the one each call left behind. A panic that the
caller does not recover from ends the process, so a caller that recovers is
the general case and the sequence goes on from the registry at the panic. -/
def Registry.trace (m : Registry) : List MetricsOp → List Registry
  | [] => [m]
  | op :: rest => m :: Registry.trace (MetricsOp.apply m op).state rest

/-- One scan attempt being recorded. -/
inductive ScanCall where
  | success (hostname : String) (duration : Float64)
  | failure (hostname : String) (duration : Float64)
  deriving DecidableEq, Repr

/-- The recording function a scan call stands for. -/
def ScanCall.apply (m : Registry) : ScanCall → Registry
  | .success h d => RecordScanSuccess m h d
  | .failure h d => RecordScanFailure m h d

/-- The hostname a scan call was given. -/
def ScanCall.hostname : ScanCall → String
  | .success h _ => h
  | .failure h _ => h

/-- Whether a scan call is a `RecordScanSuccess`. -/
def ScanCall.isSuccess : ScanCall → Bool
  | .success _ _ => true
  | .failure _ _ => false

/-- The registry after a sequence of scan calls, first call first. -/
def Registry.runScans (m : Registry) (calls : List ScanCall) : Registry :=
  calls.foldl ScanCall.apply m

/-- The duration a scan call was given. -/
def ScanCall.duration : ScanCall → Float64
  | .success _ d => d
  | .failure _ d => d

/-- Every counter of `b` reads at least what it reads in `a`: the three sync
result counters, the uptime counter, and every child of the three
status-partitioned attempt counters (a child not created yet reads zero). -/
def Registry.countersLe (a b : Registry) : Prop :=
  a.SyncCertsCreated.value ≤ b.SyncCertsCreated.value ∧
  a.SyncCertsUpdated.value ≤ b.SyncCertsUpdated.value ∧
  a.SyncCertsOrphaned.value ≤ b.SyncCertsOrphaned.value ∧
  a.AgentUptime.value ≤ b.AgentUptime.value ∧
  ∀ status : String,
    (a.ScanTotal.WithLabelValues status).value ≤ (b.ScanTotal.WithLabelValues status).value ∧
    (a.SyncTotal.WithLabelValues status).value ≤ (b.SyncTotal.WithLabelValues status).value ∧
    (a.HeartbeatTotal.WithLabelValues status).value
      ≤ (b.HeartbeatTotal.WithLabelValues status).value

/-! ## Lemmas on maps and durations -/

theorem Assoc.get_set_self {κ β : Type} [DecidableEq κ] (m : Assoc κ β) (k : κ) (v : β) :
    Assoc.get (Assoc.set m k v) k = some v := by
  induction m with
  | nil => simp [Assoc.set, Assoc.get]
  | cons hd tl ih =>
    obtain ⟨k', v'⟩ := hd
    by_cases h : k' = k
    · simp [Assoc.set, Assoc.get, h]
    · simp [Assoc.set, Assoc.get, h, ih]

theorem Assoc.get_set_ne {κ β : Type} [DecidableEq κ] (m : Assoc κ β) (k k' : κ) (v : β)
    (hne : k' ≠ k) : Assoc.get (Assoc.set m k v) k' = Assoc.get m k' := by
  induction m with
  | nil =>
    have h : ¬ k = k' := fun e => hne e.symm
    simp [Assoc.set, Assoc.get, h]
  | cons hd tl ih =>
    obtain ⟨k1, v1⟩ := hd
    by_cases h : k1 = k
    · subst h
      have h2 : ¬ k1 = k' := fun e => hne e.symm
      simp [Assoc.set, Assoc.get, h2]
    · by_cases h3 : k1 = k'
      · subst h3
        simp [Assoc.set, Assoc.get, h]
      · simp [Assoc.set, Assoc.get, h, h3, ih]

theorem ten_minutes_eq : (10 : Duration) * Minute = 600000000000 := by decide

theorem saturate_gt_ten_minutes (a : Int) :
    (if a > 9223372036854775807 then 9223372036854775807
      else if a < -9223372036854775808 then -9223372036854775808 else a) > 600000000000
      ↔ a > 600000000000 := by
  split_ifs <;> omega

theorem Since_gt_ten_minutes (now t : Time) :
    Since now t > 10 * Minute ↔ now - t > 10 * Minute := by
  rw [ten_minutes_eq]
  unfold Since Time.Sub
  have hmax : maxDuration = 9223372036854775807 := by decide
  have hmin : minDuration = -9223372036854775808 := by decide
  rw [hmax, hmin]
  exact saturate_gt_ten_minutes (now - t)

theorem droppedBits_succ (fuel n : Nat) :
    droppedBits (fuel + 1) n = if n < 2 ^ 53 then 0 else droppedBits fuel (n / 2) + 1 := rfl

theorem droppedBits_small (fuel n : Nat) (h : n < 2 ^ 53) : droppedBits fuel n = 0 := by
  cases fuel with
  | zero => rfl
  | succ f => rw [droppedBits_succ, if_pos h]

theorem pow_droppedBits_le (fuel n : Nat) (h : 1 ≤ n) : 2 ^ droppedBits fuel n ≤ n := by
  induction fuel generalizing n with
  | zero => exact h
  | succ f ih =>
    by_cases hn : n < 2 ^ 53
    · rw [droppedBits_succ, if_pos hn]
      exact h
    · have h2 : 1 ≤ n / 2 := by
        have h53 : (2 : Nat) ≤ 2 ^ 53 := by decide
        omega
      have h3 := ih (n / 2) h2
      rw [droppedBits_succ, if_neg hn, Nat.pow_succ]
      omega

theorem roundToFloat64_exact (n : Nat) (h : n ≤ 2 ^ 53) : roundToFloat64 n = n := by
  rcases Nat.lt_or_ge n (2 ^ 53) with hlt | hge
  · simp [roundToFloat64, droppedBits_small n n hlt, Nat.mod_one]
  · have e : n = 2 ^ 53 := le_antisymm h hge
    subst e
    decide

theorem roundToFloat64_pos (n : Nat) (h : 1 ≤ n) : 1 ≤ roundToFloat64 n := by
  have hp := pow_droppedBits_le n n h
  have hpos : 0 < 2 ^ droppedBits n n := Nat.pow_pos (by decide)
  have hq : 1 ≤ n / 2 ^ droppedBits n n := (Nat.one_le_div_iff hpos).2 hp
  unfold roundToFloat64
  simp only
  split_ifs
  · exact Nat.one_le_iff_ne_zero.2 (Nat.mul_ne_zero (by omega) (by omega))
  · exact Nat.one_le_iff_ne_zero.2 (Nat.mul_ne_zero (by omega) (by omega))

theorem float64OfInt_exact (n : Int) (hlo : -(2 ^ 53) ≤ n) (hhi : n ≤ 2 ^ 53) :
    float64OfInt n = n := by
  have hk : n.natAbs ≤ 2 ^ 53 := by omega
  unfold float64OfInt
  rw [roundToFloat64_exact _ hk]
  split_ifs <;> omega

theorem float64OfInt_nonneg (n : Int) (h : 0 ≤ n) : 0 ≤ float64OfInt n := by
  have hn : ¬ n < 0 := not_lt.mpr h
  simp [float64OfInt, hn]

theorem float64OfInt_neg_iff (n : Int) : float64OfInt n < 0 ↔ n < 0 := by
  constructor
  · intro h
    by_contra hn
    have := float64OfInt_nonneg n (not_lt.mp hn)
    omega
  · intro h
    have hk : 1 ≤ n.natAbs := by omega
    have := roundToFloat64_pos _ hk
    simp only [float64OfInt, h, if_true]
    omega

/-! ## Properties of the health state and the health endpoints -/

/-- C1: `livezHandler` answers 503 exactly when no scan was ever recorded or
`now - lastScan` exceeds 10 minutes, and 200 exactly in every other case; the
status does not depend on the ready flag or on `lastSync`. -/
theorem livezHandler_status (s : HealthState) (now stamp : Time) :
    ((livezHandler s now stamp).status = 503 ↔
        (s.lastScan = none ∨ ∃ ls, s.lastScan = some ls ∧ now - ls > 10 * Minute)) ∧
    ((livezHandler s now stamp).status = 200 ↔
        ¬ (s.lastScan = none ∨ ∃ ls, s.lastScan = some ls ∧ now - ls > 10 * Minute)) ∧
    (∀ (r : Bool) (y : Option Time),
        (livezHandler { ready := r, lastScan := s.lastScan, lastSync := y } now stamp).status
          = (livezHandler s now stamp).status) := by
  obtain ⟨r0, sc, sy⟩ := s
  cases sc with
  | none =>
    simp [livezHandler, assertTime, StatusServiceUnavailable]
  | some ls =>
    by_cases h : Since now ls > 10 * Minute
    · have h2 := (Since_gt_ten_minutes now ls).1 h
      simp [livezHandler, assertTime, StatusServiceUnavailable, h, h2]
    · have h2 : ¬ now - ls > 10 * Minute := fun e => h ((Since_gt_ten_minutes now ls).2 e)
      simp only [livezHandler, assertTime, StatusOK, h]
      refine ⟨?_, ?_, ?_⟩
      · simp
        by_contra e
        exact h2 (by linarith)
      · simp
        by_contra e
        exact h2 (by linarith)
      · intro r y
        simp [h]

/-- C2: the keys of the `livezHandler` body. On 503: status "unhealthy", reason
"no recent scans", the timestamp, `last_scan` exactly when a scan was ever
recorded, and never `last_sync`. On 200: status "healthy", the timestamp,
`last_scan` always, and `last_sync` exactly when a sync was ever recorded. No
other key occurs. -/
theorem livezHandler_body (s : HealthState) (now stamp : Time) :
    ((livezHandler s now stamp).status = 503 ∨ (livezHandler s now stamp).status = 200) ∧
    ((livezHandler s now stamp).status = 503 →
      Assoc.get (livezHandler s now stamp).body "status" = some (.str "unhealthy") ∧
      Assoc.get (livezHandler s now stamp).body "reason" = some (.str "no recent scans") ∧
      Assoc.get (livezHandler s now stamp).body "timestamp" = some (.rfc3339 stamp true) ∧
      Assoc.get (livezHandler s now stamp).body "last_scan"
        = s.lastScan.map (fun ls => Value.rfc3339 ls false) ∧
      ((Assoc.get (livezHandler s now stamp).body "last_scan").isSome = true
        ↔ s.lastScan ≠ none) ∧
      Assoc.get (livezHandler s now stamp).body "last_sync" = none) ∧
    ((livezHandler s now stamp).status = 200 →
      Assoc.get (livezHandler s now stamp).body "status" = some (.str "healthy") ∧
      Assoc.get (livezHandler s now stamp).body "timestamp" = some (.rfc3339 stamp true) ∧
      (∃ ls, s.lastScan = some ls ∧
        Assoc.get (livezHandler s now stamp).body "last_scan" = some (.rfc3339 ls false)) ∧
      Assoc.get (livezHandler s now stamp).body "last_sync"
        = s.lastSync.map (fun lsy => Value.rfc3339 lsy false) ∧
      ((Assoc.get (livezHandler s now stamp).body "last_sync").isSome = true
        ↔ s.lastSync ≠ none) ∧
      Assoc.get (livezHandler s now stamp).body "reason" = none) ∧
    (∀ k ∈ Assoc.keys (livezHandler s now stamp).body,
      k = "status" ∨ k = "reason" ∨ k = "timestamp" ∨ k = "last_scan" ∨ k = "last_sync") := by
  obtain ⟨r0, sc, sy⟩ := s
  cases sc with
  | none =>
    simp [livezHandler, assertTime, StatusServiceUnavailable, Assoc.get, Assoc.keys]
  | some ls =>
    by_cases h : Since now ls > 10 * Minute
    · simp [livezHandler, assertTime, StatusServiceUnavailable, h, Assoc.get, Assoc.set,
        Assoc.keys]
    · cases sy with
      | none =>
        simp [livezHandler, assertTime, StatusOK, h, Assoc.get, Assoc.set, Assoc.keys]
      | some lsy =>
        simp [livezHandler, assertTime, StatusOK, h, Assoc.get, Assoc.set, Assoc.keys]

/-- Instances of `livezHandler_body`: the unhealthy body of a state with a stale
scan and a sync carries `last_scan` and no `last_sync`; the healthy body of a
state with a fresh scan and a sync carries both. -/
theorem livezHandler_body_witness :
    (livezHandler { ready := true, lastScan := some 0, lastSync := some 7 }
        (11 * Minute) (11 * Minute)).status = 503 ∧
    Assoc.get (livezHandler { ready := true, lastScan := some 0, lastSync := some 7 }
        (11 * Minute) (11 * Minute)).body "last_scan" = some (.rfc3339 0 false) ∧
    Assoc.get (livezHandler { ready := true, lastScan := some 0, lastSync := some 7 }
        (11 * Minute) (11 * Minute)).body "last_sync" = none ∧
    (livezHandler { ready := false, lastScan := some 0, lastSync := some 7 }
        Minute Minute).status = 200 ∧
    Assoc.get (livezHandler { ready := false, lastScan := some 0, lastSync := some 7 }
        Minute Minute).body "last_sync" = some (.rfc3339 7 false) :=
  have h1 := (livezHandler_body { ready := true, lastScan := some 0, lastSync := some 7 }
    (11 * Minute) (11 * Minute)).2.1 (by decide)
  have h2 := (livezHandler_body { ready := false, lastScan := some 0, lastSync := some 7 }
    Minute Minute).2.2.1 (by decide)
  ⟨by decide, h1.2.2.2.1, h1.2.2.2.2.2, by decide, h2.2.2.2.1⟩

theorem lastSetReady_append_single (ops : List HealthOp) (op : HealthOp) :
    lastSetReady (ops ++ [op]) =
      match op with
      | .setReady r => some r
      | _ => lastSetReady ops := by
  induction ops with
  | nil => cases op <;> simp [lastSetReady]
  | cons hd tl ih =>
    cases op with
    | setReady r => simp [lastSetReady, ih]
    | recordScan t => simp [lastSetReady, ih]
    | recordSync t => simp [lastSetReady, ih]

theorem run_append_single (s : HealthState) (ops : List HealthOp) (op : HealthOp) :
    s.run (ops ++ [op]) = HealthOp.apply (s.run ops) op := by
  simp [HealthState.run, List.foldl_append]

/-- The ready flag after a sequence of calls is the argument of its last
`SetReady` call, or the flag it started with when there is none. -/
theorem ready_run (s : HealthState) (ops : List HealthOp) :
    (s.run ops).ready = (lastSetReady ops).getD s.ready := by
  induction ops using List.reverseRecOn with
  | nil => simp [HealthState.run, lastSetReady]
  | append_singleton ops op ih =>
    rw [run_append_single, lastSetReady_append_single]
    cases op with
    | setReady r => simp [HealthOp.apply, SetReady]
    | recordScan t => simpa [HealthOp.apply, RecordScan] using ih
    | recordSync t => simpa [HealthOp.apply, RecordSync] using ih

/-- C3: in the initial state, and in every state reached from it without a
`SetReady` call, `readyzHandler` answers 503 with status "not ready" and reason
"agent initializing"; after any sequence of calls whose last `SetReady` call was
`SetReady(true)` it answers 200 with status "ready" and no reason key; and in
every state the status is 200 exactly when the ready flag is true. -/
theorem readyzHandler_ready (s : HealthState) (ops : List HealthOp) (stamp : Time) :
    ((readyzHandler HealthState.init stamp).status = 503 ∧
      Assoc.get (readyzHandler HealthState.init stamp).body "status" = some (.str "not ready") ∧
      Assoc.get (readyzHandler HealthState.init stamp).body "reason"
        = some (.str "agent initializing")) ∧
    (lastSetReady ops = none →
      (readyzHandler (HealthState.init.run ops) stamp).status = 503 ∧
      Assoc.get (readyzHandler (HealthState.init.run ops) stamp).body "status"
        = some (.str "not ready") ∧
      Assoc.get (readyzHandler (HealthState.init.run ops) stamp).body "reason"
        = some (.str "agent initializing")) ∧
    (lastSetReady ops = some true →
      (readyzHandler (s.run ops) stamp).status = 200 ∧
      Assoc.get (readyzHandler (s.run ops) stamp).body "status" = some (.str "ready") ∧
      Assoc.get (readyzHandler (s.run ops) stamp).body "reason" = none) ∧
    ((readyzHandler s stamp).status = 200 ↔ s.ready = true) := by
  refine ⟨⟨rfl, rfl, rfl⟩, ?_, ?_, ?_⟩
  · intro h
    have hr : (HealthState.init.run ops).ready = false := by
      rw [ready_run, h]; rfl
    simp [readyzHandler, hr, StatusServiceUnavailable, Assoc.get]
  · intro h
    have hr : (s.run ops).ready = true := by
      rw [ready_run, h]; rfl
    simp [readyzHandler, hr, StatusOK, Assoc.get]
  · cases hs : s.ready <;> simp [readyzHandler, hs, StatusOK, StatusServiceUnavailable]

/-- An instance of `readyzHandler_ready`: after `SetReady(false)`, a scan,
`SetReady(true)` and a sync the endpoint answers 200; after a scan and a sync
alone it answers 503. -/
theorem readyzHandler_ready_witness :
    lastSetReady [.setReady false, .recordScan 3, .setReady true, .recordSync 4] = some true ∧
    (readyzHandler (HealthState.init.run
      [.setReady false, .recordScan 3, .setReady true, .recordSync 4]) 9).status = 200 ∧
    lastSetReady [.recordScan 3, .recordSync 4] = none ∧
    (readyzHandler (HealthState.init.run [.recordScan 3, .recordSync 4]) 9).status = 503 :=
  ⟨by decide,
   ((readyzHandler_ready HealthState.init
      [.setReady false, .recordScan 3, .setReady true, .recordSync 4] 9).2.2.1 (by decide)).1,
   by decide,
   ((readyzHandler_ready HealthState.init [.recordScan 3, .recordSync 4] 9).2.1 (by decide)).1⟩

/-- C10: the three fields are updated independently. `RecordScan` changes only
`lastScan`, and `GetLastScan` then returns the stored time with presence true;
`RecordSync` changes only `lastSync`; `SetReady` changes only `ready`; in the
initial state both getters return presence false. -/
theorem health_fields_independent (s : HealthState) (now : Time) (r : Bool) :
    ((RecordScan s now).ready = s.ready ∧ (RecordScan s now).lastSync = s.lastSync ∧
      GetLastScan (RecordScan s now) = (now, true) ∧
      GetLastSync (RecordScan s now) = GetLastSync s) ∧
    ((RecordSync s now).ready = s.ready ∧ (RecordSync s now).lastScan = s.lastScan ∧
      GetLastSync (RecordSync s now) = (now, true) ∧
      GetLastScan (RecordSync s now) = GetLastScan s) ∧
    ((SetReady s r).lastScan = s.lastScan ∧ (SetReady s r).lastSync = s.lastSync ∧
      (SetReady s r).ready = r ∧
      GetLastScan (SetReady s r) = GetLastScan s ∧
      GetLastSync (SetReady s r) = GetLastSync s) ∧
    ((GetLastScan HealthState.init).2 = false ∧ (GetLastSync HealthState.init).2 = false ∧
      HealthState.init.ready = false) := by
  refine ⟨⟨rfl, rfl, rfl, rfl⟩, ⟨rfl, rfl, rfl, rfl⟩, ⟨rfl, rfl, rfl, rfl, rfl⟩, rfl, rfl, rfl⟩

/-! ## Properties of the metrics recording surface -/

theorem CounterVec.inc_self {κ : Type} [DecidableEq κ] (v : CounterVec κ) (k : κ) :
    ((v.inc k).WithLabelValues k).value = (v.WithLabelValues k).value + 1 := by
  simp [CounterVec.inc, CounterVec.WithLabelValues, Assoc.get_set_self, Counter.Inc]

theorem CounterVec.inc_ne {κ : Type} [DecidableEq κ] (v : CounterVec κ) (k k' : κ)
    (hne : k' ≠ k) : (v.inc k).WithLabelValues k' = v.WithLabelValues k' := by
  simp [CounterVec.inc, CounterVec.WithLabelValues, Assoc.get_set_ne _ _ _ _ hne]

theorem CounterVec.le_inc {κ : Type} [DecidableEq κ] (v : CounterVec κ) (k k' : κ) :
    (v.WithLabelValues k').value ≤ ((v.inc k).WithLabelValues k').value := by
  by_cases h : k' = k
  · subst h
    rw [CounterVec.inc_self]
    linarith
  · rw [CounterVec.inc_ne v k k' h]

theorem GaugeVec.set_self {κ : Type} [DecidableEq κ] (v : GaugeVec κ) (k : κ) (x : Float64) :
    ((v.set k x).WithLabelValues k).value = x := by
  simp [GaugeVec.set, GaugeVec.WithLabelValues, Assoc.get_set_self, Gauge.Set]

theorem GaugeVec.set_ne {κ : Type} [DecidableEq κ] (v : GaugeVec κ) (k k' : κ) (x : Float64)
    (hne : k' ≠ k) : Assoc.get (v.set k x) k' = Assoc.get v k' := by
  simp [GaugeVec.set, Assoc.get_set_ne _ _ _ _ hne]

theorem HistogramVec.observe_self {κ : Type} [DecidableEq κ] (v : HistogramVec κ) (k : κ)
    (x : Float64) :
    ((v.observe k x).WithLabelValues k).samples = (v.WithLabelValues k).samples ++ [x] := by
  simp [HistogramVec.observe, HistogramVec.WithLabelValues, Assoc.get_set_self,
    Histogram.Observe]

theorem HistogramVec.observe_ne {κ : Type} [DecidableEq κ] (v : HistogramVec κ) (k k' : κ)
    (x : Float64) (hne : k' ≠ k) :
    (v.observe k x).WithLabelValues k' = v.WithLabelValues k' := by
  simp [HistogramVec.observe, HistogramVec.WithLabelValues, Assoc.get_set_ne _ _ _ _ hne]

/-- `RecordSyncSuccess` with non-negative counts returns; it adds the float64
conversions of the three counts to the three counters and one to the "success"
child. -/
theorem recordSyncSuccess_returned (m : Registry) (d : Float64) (c u o : Int)
    (hc : 0 ≤ c) (hu : 0 ≤ u) (ho : 0 ≤ o) :
    ∃ m', RecordSyncSuccess m d c u o = .returned m' ∧
      m'.SyncCertsCreated.value = m.SyncCertsCreated.value + (float64OfInt c : ℚ) ∧
      m'.SyncCertsUpdated.value = m.SyncCertsUpdated.value + (float64OfInt u : ℚ) ∧
      m'.SyncCertsOrphaned.value = m.SyncCertsOrphaned.value + (float64OfInt o : ℚ) ∧
      (m'.SyncTotal.WithLabelValues "success").value
        = (m.SyncTotal.WithLabelValues "success").value + 1 := by
  have hc' : ¬ float64OfInt c < 0 := not_lt.mpr (float64OfInt_nonneg c hc)
  have hu' : ¬ float64OfInt u < 0 := not_lt.mpr (float64OfInt_nonneg u hu)
  have ho' : ¬ float64OfInt o < 0 := not_lt.mpr (float64OfInt_nonneg o ho)
  simp [RecordSyncSuccess, Counter.Add, hc', hu', ho', CounterVec.inc_self]

/-- C4, as stated, fails: on a fresh registry a successful sync that created
`2 ^ 53 + 1` certificates returns with the created counter at `2 ^ 53`, because
`float64(created)` rounds; the counter did not increase by exactly the count. -/
theorem recordSync_counters_counterexample :
    ∃ m', RecordSyncSuccess Registry.init 0 (2 ^ 53 + 1) 0 0 = .returned m' ∧
      m'.SyncCertsCreated.value = 2 ^ 53 ∧
      m'.SyncCertsCreated.value
        ≠ Registry.init.SyncCertsCreated.value + (((2 ^ 53 + 1 : Int)) : ℚ) := by
  obtain ⟨m', h, h1, _⟩ :=
    recordSyncSuccess_returned Registry.init 0 (2 ^ 53 + 1) 0 0 (by decide) (by decide)
      (by decide)
  have hr : float64OfInt (2 ^ 53 + 1) = 2 ^ 53 := by decide
  have h0 : Registry.init.SyncCertsCreated.value = 0 := rfl
  rw [hr, h0] at h1
  refine ⟨m', h, ?_, ?_⟩
  · rw [h1]; norm_num
  · rw [h1, h0]; norm_num

/-- C4, amended: `RecordSyncFailure` leaves the created, updated and orphaned
counters as they were and adds one to the "failure" child of the sync attempt
counter; `RecordSyncSuccess` with non-negative counts returns, adds one to the
"success" child and adds to the three counters the float64 conversions of the
three counts, which are exactly the counts themselves for every count up to
`2 ^ 53`. -/
theorem recordSync_counters (m : Registry) (d : Float64) (c u o : Int)
    (hc : 0 ≤ c) (hu : 0 ≤ u) (ho : 0 ≤ o) :
    ((RecordSyncFailure m d).SyncCertsCreated = m.SyncCertsCreated ∧
      (RecordSyncFailure m d).SyncCertsUpdated = m.SyncCertsUpdated ∧
      (RecordSyncFailure m d).SyncCertsOrphaned = m.SyncCertsOrphaned ∧
      ((RecordSyncFailure m d).SyncTotal.WithLabelValues "failure").value
        = (m.SyncTotal.WithLabelValues "failure").value + 1) ∧
    (∃ m', RecordSyncSuccess m d c u o = .returned m' ∧
      m'.SyncCertsCreated.value = m.SyncCertsCreated.value + (float64OfInt c : ℚ) ∧
      m'.SyncCertsUpdated.value = m.SyncCertsUpdated.value + (float64OfInt u : ℚ) ∧
      m'.SyncCertsOrphaned.value = m.SyncCertsOrphaned.value + (float64OfInt o : ℚ) ∧
      (c ≤ 2 ^ 53 → m'.SyncCertsCreated.value = m.SyncCertsCreated.value + (c : ℚ)) ∧
      (u ≤ 2 ^ 53 → m'.SyncCertsUpdated.value = m.SyncCertsUpdated.value + (u : ℚ)) ∧
      (o ≤ 2 ^ 53 → m'.SyncCertsOrphaned.value = m.SyncCertsOrphaned.value + (o : ℚ)) ∧
      (m'.SyncTotal.WithLabelValues "success").value
        = (m.SyncTotal.WithLabelValues "success").value + 1) := by
  refine ⟨⟨rfl, rfl, rfl, ?_⟩, ?_⟩
  · simp [RecordSyncFailure, CounterVec.inc_self]
  · obtain ⟨m', h, h1, h2, h3, h4⟩ := recordSyncSuccess_returned m d c u o hc hu ho
    have lo : ∀ x : Int, 0 ≤ x → -(2 ^ 53) ≤ x := fun x hx => by omega
    refine ⟨m', h, h1, h2, h3, ?_, ?_, ?_, h4⟩
    · intro hb
      rw [h1, float64OfInt_exact c (lo c hc) hb]
    · intro hb
      rw [h2, float64OfInt_exact u (lo u hu) hb]
    · intro hb
      rw [h3, float64OfInt_exact o (lo o ho) hb]

/-- The example of the specification as an instance of `recordSync_counters`:
on a fresh registry a successful sync with counts 5, 2, 1 returns and leaves the
three counters at 5, 2 and 1. -/
theorem recordSync_counters_witness :
    (0 : Int) ≤ 5 ∧ (0 : Int) ≤ 2 ∧ (0 : Int) ≤ 1 ∧
    ∃ m', RecordSyncSuccess Registry.init (3 / 2) 5 2 1 = .returned m' ∧
      m'.SyncCertsCreated.value = 5 ∧ m'.SyncCertsUpdated.value = 2 ∧
      m'.SyncCertsOrphaned.value = 1 := by
  refine ⟨by decide, by decide, by decide, ?_⟩
  obtain ⟨m', h, _, _, _, h1, h2, h3, _⟩ :=
    (recordSync_counters Registry.init (3 / 2) 5 2 1 (by decide) (by decide) (by decide)).2
  have e1 := h1 (by decide)
  have e2 := h2 (by decide)
  have e3 := h3 (by decide)
  exact ⟨m', h, by simpa [Registry.init] using e1, by simpa [Registry.init] using e2,
    by simpa [Registry.init] using e3⟩

theorem runScans_cons (m : Registry) (c : ScanCall) (calls : List ScanCall) :
    m.runScans (c :: calls) = (c.apply m).runScans calls := rfl

theorem ScanCall.apply_success_child (m : Registry) (c : ScanCall) :
    ((c.apply m).ScanTotal.WithLabelValues "success").value
      = (m.ScanTotal.WithLabelValues "success").value + (if c.isSuccess then 1 else 0) := by
  cases c with
  | success h d =>
    simp [ScanCall.apply, RecordScanSuccess, ScanCall.isSuccess, CounterVec.inc_self]
  | failure h d =>
    have hne : ("success" : String) ≠ "failure" := by decide
    simp [ScanCall.apply, RecordScanFailure, ScanCall.isSuccess,
      CounterVec.inc_ne _ _ _ hne]

theorem ScanCall.apply_failure_child (m : Registry) (c : ScanCall) :
    ((c.apply m).ScanTotal.WithLabelValues "failure").value
      = (m.ScanTotal.WithLabelValues "failure").value + (if c.isSuccess then 0 else 1) := by
  cases c with
  | success h d =>
    have hne : ("failure" : String) ≠ "success" := by decide
    simp [ScanCall.apply, RecordScanSuccess, ScanCall.isSuccess,
      CounterVec.inc_ne _ _ _ hne]
  | failure h d =>
    simp [ScanCall.apply, RecordScanFailure, ScanCall.isSuccess, CounterVec.inc_self]

theorem ScanCall.apply_samples (m : Registry) (c : ScanCall) :
    ((c.apply m).ScanDurationSeconds.WithLabelValues c.hostname).samples
      = (m.ScanDurationSeconds.WithLabelValues c.hostname).samples ++ [c.duration] := by
  cases c <;>
    simp [ScanCall.apply, RecordScanSuccess, RecordScanFailure, ScanCall.hostname,
      ScanCall.duration, HistogramVec.observe_self]

theorem ScanCall.apply_samples_ne (m : Registry) (c : ScanCall) (h : String)
    (hne : h ≠ c.hostname) :
    (c.apply m).ScanDurationSeconds.WithLabelValues h
      = m.ScanDurationSeconds.WithLabelValues h := by
  cases c <;>
    simp_all [ScanCall.apply, RecordScanSuccess, RecordScanFailure, ScanCall.hostname,
      HistogramVec.observe_ne]

theorem runScans_success_child (calls : List ScanCall) (m : Registry) :
    ((m.runScans calls).ScanTotal.WithLabelValues "success").value
      = (m.ScanTotal.WithLabelValues "success").value
        + ((calls.filter ScanCall.isSuccess).length : ℚ) := by
  induction calls generalizing m with
  | nil => simp [Registry.runScans]
  | cons c rest ih =>
    rw [runScans_cons, ih, ScanCall.apply_success_child]
    cases hc : c.isSuccess <;> simp [List.filter, hc]
    ring

theorem runScans_failure_child (calls : List ScanCall) (m : Registry) :
    ((m.runScans calls).ScanTotal.WithLabelValues "failure").value
      = (m.ScanTotal.WithLabelValues "failure").value
        + ((calls.filter (fun c => !c.isSuccess)).length : ℚ) := by
  induction calls generalizing m with
  | nil => simp [Registry.runScans]
  | cons c rest ih =>
    rw [runScans_cons, ih, ScanCall.apply_failure_child]
    cases hc : c.isSuccess <;> simp [List.filter, hc]
    ring

theorem runScans_count (calls : List ScanCall) (m : Registry) (h : String) :
    ((m.runScans calls).ScanDurationSeconds.WithLabelValues h).count
      = (m.ScanDurationSeconds.WithLabelValues h).count
        + (calls.filter (fun c => decide (c.hostname = h))).length := by
  induction calls generalizing m with
  | nil => simp [Registry.runScans]
  | cons c rest ih =>
    rw [runScans_cons, ih]
    by_cases hc : c.hostname = h
    · subst hc
      simp [List.filter, Histogram.count, ScanCall.apply_samples]
      ring
    · have hne : h ≠ c.hostname := fun e => hc e.symm
      simp [List.filter, hc, ScanCall.apply_samples_ne m c h hne]

theorem filter_isSuccess_length (calls : List ScanCall) :
    (calls.filter ScanCall.isSuccess).length
      + (calls.filter (fun c => !c.isSuccess)).length = calls.length := by
  induction calls with
  | nil => rfl
  | cons c rest ih =>
    cases hc : c.isSuccess <;> simp [List.filter, hc] <;> omega

/-- C5: after any sequence of `RecordScanSuccess` and `RecordScanFailure` calls
on a fresh registry, the "success" child of the scan attempt counter reads the
number of `RecordScanSuccess` calls, the "failure" child the number of
`RecordScanFailure` calls, and their sum the length of the sequence; each call,
in any registry, appends exactly one sample, its duration, to the histogram of
its hostname and leaves the histograms of other hostnames alone, so that after
the sequence the histogram of a hostname holds one sample for each call given
that hostname. -/
theorem scan_counter_counts (calls : List ScanCall) (m : Registry) (c : ScanCall)
    (h : String) :
    ((Registry.init.runScans calls).ScanTotal.WithLabelValues "success").value
      = ((calls.filter ScanCall.isSuccess).length : ℚ) ∧
    ((Registry.init.runScans calls).ScanTotal.WithLabelValues "failure").value
      = ((calls.filter (fun c => !c.isSuccess)).length : ℚ) ∧
    ((Registry.init.runScans calls).ScanTotal.WithLabelValues "success").value
      + ((Registry.init.runScans calls).ScanTotal.WithLabelValues "failure").value
      = (calls.length : ℚ) ∧
    ((c.apply m).ScanDurationSeconds.WithLabelValues c.hostname).count
      = (m.ScanDurationSeconds.WithLabelValues c.hostname).count + 1 ∧
    ((c.apply m).ScanDurationSeconds.WithLabelValues c.hostname).samples
      = (m.ScanDurationSeconds.WithLabelValues c.hostname).samples ++ [c.duration] ∧
    (h ≠ c.hostname →
      (c.apply m).ScanDurationSeconds.WithLabelValues h
        = m.ScanDurationSeconds.WithLabelValues h) ∧
    ((Registry.init.runScans calls).ScanDurationSeconds.WithLabelValues h).count
      = (calls.filter (fun c => decide (c.hostname = h))).length := by
  have hs := runScans_success_child calls Registry.init
  have hf := runScans_failure_child calls Registry.init
  have h0s : (Registry.init.ScanTotal.WithLabelValues "success").value = 0 := rfl
  have h0f : (Registry.init.ScanTotal.WithLabelValues "failure").value = 0 := rfl
  rw [h0s, zero_add] at hs
  rw [h0f, zero_add] at hf
  refine ⟨hs, hf, ?_, ?_, ScanCall.apply_samples m c, ScanCall.apply_samples_ne m c h, ?_⟩
  · rw [hs, hf]
    exact_mod_cast filter_isSuccess_length calls
  · simp [Histogram.count, ScanCall.apply_samples]
  · have hc := runScans_count calls Registry.init h
    have h0 : (Registry.init.ScanDurationSeconds.WithLabelValues h).count = 0 := rfl
    rw [h0, zero_add] at hc
    exact hc

/-- An instance of `scan_counter_counts`: a call for one hostname leaves the
histogram of another hostname alone. -/
theorem scan_counter_counts_witness :
    ("b.example" : String) ≠ (ScanCall.success "a.example" (1 / 2)).hostname ∧
    ((ScanCall.success "a.example" (1 / 2)).apply Registry.init).ScanDurationSeconds.WithLabelValues
        "b.example"
      = Registry.init.ScanDurationSeconds.WithLabelValues "b.example" :=
  ⟨by decide,
   (scan_counter_counts [] Registry.init (ScanCall.success "a.example" (1 / 2))
      "b.example").2.2.2.2.2.1 (by decide)⟩

/-- C6: after `RecordCertificateMetrics(h, p, d, e, valid, chainValid)` the four
gauges at `(h, p)` read `d`, `e`, 1 or 0 for `valid` and 1 or 0 for
`chainValid`, and the children of every other label pair are as before; for
`("example.com", "443", 30, 1700000000, true, true)` the readings are 30, 1
and 1. -/
theorem recordCertificateMetrics_gauges (m : Registry) (h p : String) (d e : Float64)
    (valid chainValid : Bool) (k : String × String) :
    (((RecordCertificateMetrics m h p d e valid chainValid).CertDaysUntilExpiry.WithLabelValues
        (h, p)).value = d ∧
      ((RecordCertificateMetrics m h p d e valid chainValid).CertExpiryTimestamp.WithLabelValues
        (h, p)).value = e ∧
      ((RecordCertificateMetrics m h p d e valid chainValid).CertValid.WithLabelValues
        (h, p)).value = (if valid then 1 else 0) ∧
      ((RecordCertificateMetrics m h p d e valid chainValid).CertChainValid.WithLabelValues
        (h, p)).value = (if chainValid then 1 else 0)) ∧
    (k ≠ (h, p) →
      Assoc.get (RecordCertificateMetrics m h p d e valid chainValid).CertDaysUntilExpiry k
        = Assoc.get m.CertDaysUntilExpiry k ∧
      Assoc.get (RecordCertificateMetrics m h p d e valid chainValid).CertExpiryTimestamp k
        = Assoc.get m.CertExpiryTimestamp k ∧
      Assoc.get (RecordCertificateMetrics m h p d e valid chainValid).CertValid k
        = Assoc.get m.CertValid k ∧
      Assoc.get (RecordCertificateMetrics m h p d e valid chainValid).CertChainValid k
        = Assoc.get m.CertChainValid k) ∧
    (((RecordCertificateMetrics m "example.com" "443" 30 1700000000 true
        true).CertDaysUntilExpiry.WithLabelValues ("example.com", "443")).value = 30 ∧
      ((RecordCertificateMetrics m "example.com" "443" 30 1700000000 true
        true).CertValid.WithLabelValues ("example.com", "443")).value = 1 ∧
      ((RecordCertificateMetrics m "example.com" "443" 30 1700000000 true
        true).CertChainValid.WithLabelValues ("example.com", "443")).value = 1) := by
  refine ⟨?_, ?_, ?_⟩
  · cases valid <;> cases chainValid <;>
      simp [RecordCertificateMetrics, GaugeVec.set_self]
  · intro hne
    cases valid <;> cases chainValid <;>
      simp [RecordCertificateMetrics, GaugeVec.set_ne _ _ _ _ hne]
  · simp [RecordCertificateMetrics, GaugeVec.set_self]

/-- An instance of `recordCertificateMetrics_gauges`: recording an expired
certificate of one endpoint leaves the days-until-expiry child of another
endpoint at the value recorded for it before. -/
theorem recordCertificateMetrics_gauges_witness :
    (("example.com", "443") : String × String) ≠ ("old.example", "8443") ∧
    Assoc.get (RecordCertificateMetrics
        (RecordCertificateMetrics Registry.init "example.com" "443" 30 1700000000 true true)
        "old.example" "8443" (-3) 1600000000 false true).CertDaysUntilExpiry
        ("example.com", "443")
      = Assoc.get (RecordCertificateMetrics Registry.init "example.com" "443" 30 1700000000
          true true).CertDaysUntilExpiry ("example.com", "443") :=
  ⟨by decide,
   ((recordCertificateMetrics_gauges
      (RecordCertificateMetrics Registry.init "example.com" "443" 30 1700000000 true true)
      "old.example" "8443" (-3) 1600000000 false true ("example.com", "443")).2.1
      (by decide)).1⟩

theorem Registry.countersLe_refl (m : Registry) : m.countersLe m :=
  ⟨le_refl _, le_refl _, le_refl _, le_refl _, fun _ => ⟨le_refl _, le_refl _, le_refl _⟩⟩

/-- `RecordSyncSuccess` panics exactly when one of the three counts is
negative. -/
theorem recordSyncSuccess_panics_iff (m : Registry) (d : Float64) (c u o : Int) :
    (∃ m', RecordSyncSuccess m d c u o = .panicked m') ↔ (c < 0 ∨ u < 0 ∨ o < 0) := by
  have ec := float64OfInt_neg_iff c
  have eu := float64OfInt_neg_iff u
  have eo := float64OfInt_neg_iff o
  by_cases hc : c < 0
  · simp [RecordSyncSuccess, Counter.Add, ec, hc]
  · by_cases hu : u < 0
    · simp [RecordSyncSuccess, Counter.Add, ec, eu, hc, hu]
    · by_cases ho : o < 0
      · simp [RecordSyncSuccess, Counter.Add, ec, eu, eo, hc, hu, ho]
      · simp [RecordSyncSuccess, Counter.Add, ec, eu, eo, hc, hu, ho]

theorem recordSyncSuccess_countersLe (m : Registry) (d : Float64) (c u o : Int) :
    m.countersLe (RecordSyncSuccess m d c u o).state := by
  by_cases hc : float64OfInt c < 0
  · simp [RecordSyncSuccess, Counter.Add, hc, Outcome.state, Registry.countersLe,
      CounterVec.le_inc]
  · by_cases hu : float64OfInt u < 0
    · simp [RecordSyncSuccess, Counter.Add, hc, hu, Outcome.state, Registry.countersLe,
        CounterVec.le_inc]
      exact not_lt.mp hc
    · by_cases ho : float64OfInt o < 0
      · simp [RecordSyncSuccess, Counter.Add, hc, hu, ho, Outcome.state, Registry.countersLe,
          CounterVec.le_inc]
        exact ⟨not_lt.mp hc, not_lt.mp hu⟩
      · simp [RecordSyncSuccess, Counter.Add, hc, hu, ho, Outcome.state, Registry.countersLe,
          CounterVec.le_inc]
        exact ⟨not_lt.mp hc, not_lt.mp hu, not_lt.mp ho⟩

theorem MetricsOp.apply_countersLe (m : Registry) (op : MetricsOp) :
    m.countersLe (MetricsOp.apply m op).state := by
  cases op with
  | recordCertificateMetrics h p d e v c =>
    cases v <;> cases c <;>
      simp [MetricsOp.apply, Outcome.state, RecordCertificateMetrics, Registry.countersLe]
  | recordScanSuccess h d =>
    simp [MetricsOp.apply, Outcome.state, RecordScanSuccess, Registry.countersLe,
      CounterVec.le_inc]
  | recordScanFailure h d =>
    simp [MetricsOp.apply, Outcome.state, RecordScanFailure, Registry.countersLe,
      CounterVec.le_inc]
  | recordSyncSuccess d c u o =>
    exact recordSyncSuccess_countersLe m d c u o
  | recordSyncFailure d =>
    simp [MetricsOp.apply, Outcome.state, RecordSyncFailure, Registry.countersLe,
      CounterVec.le_inc]
  | recordHeartbeatSuccess d =>
    simp [MetricsOp.apply, Outcome.state, RecordHeartbeatSuccess, Registry.countersLe,
      CounterVec.le_inc]
  | recordHeartbeatFailure d =>
    simp [MetricsOp.apply, Outcome.state, RecordHeartbeatFailure, Registry.countersLe,
      CounterVec.le_inc]
  | setAgentInfo v n a =>
    simp [MetricsOp.apply, Outcome.state, SetAgentInfo, Registry.countersLe]
  | setCertificatesConfigured n =>
    simp [MetricsOp.apply, Outcome.state, SetCertificatesConfigured, Registry.countersLe]

theorem Registry.trace_chain (ops : List MetricsOp) (m : Registry) :
    List.Chain' Registry.countersLe (m.trace ops) := by
  induction ops generalizing m with
  | nil => simp [Registry.trace]
  | cons op rest ih =>
    have h := ih (MetricsOp.apply m op).state
    cases rest with
    | nil =>
      simp [Registry.trace]
      exact MetricsOp.apply_countersLe m op
    | cons op2 rest2 =>
      simp only [Registry.trace] at h ⊢
      exact List.Chain'.cons (MetricsOp.apply_countersLe m op) h

/-- C8: every counter only ever increases. For every registry and every
recording call with arbitrary arguments, the created, updated, orphaned and
uptime counters and every child of the status-partitioned attempt counters read
at least as much after the call as before it, whether the call returned or
panicked; so along any sequence of calls each registry is below the next. A
negative count does not lower a counter: `Add` panics on it and the counter
keeps its value. -/
theorem counters_never_decrease (m : Registry) (op : MetricsOp) (ops : List MetricsOp)
    (d : Float64) (c u o : Int) :
    m.countersLe (MetricsOp.apply m op).state ∧
    List.Chain' Registry.countersLe (m.trace ops) ∧
    m.SyncCertsCreated.value ≤ (RecordSyncSuccess m d c u o).state.SyncCertsCreated.value ∧
    m.SyncCertsUpdated.value ≤ (RecordSyncSuccess m d c u o).state.SyncCertsUpdated.value ∧
    m.SyncCertsOrphaned.value ≤ (RecordSyncSuccess m d c u o).state.SyncCertsOrphaned.value :=
  have h := recordSyncSuccess_countersLe m d c u o
  ⟨MetricsOp.apply_countersLe m op, Registry.trace_chain ops m, h.1, h.2.1, h.2.2.1⟩

/-- C9, as stated, fails: `SetCertificatesConfigured(2 ^ 63 - 1)`, applied once
or twice, leaves the gauge at `2 ^ 63`, because `float64(count)` rounds; the
gauge does not read the count. -/
theorem setters_idempotent_counterexample :
    (SetCertificatesConfigured (SetCertificatesConfigured Registry.init (2 ^ 63 - 1))
        (2 ^ 63 - 1)).CertificatesConfigured.value = 2 ^ 63 ∧
    (SetCertificatesConfigured Registry.init (2 ^ 63 - 1)).CertificatesConfigured.value
      = 2 ^ 63 ∧
    (SetCertificatesConfigured (SetCertificatesConfigured Registry.init (2 ^ 63 - 1))
        (2 ^ 63 - 1)).CertificatesConfigured.value ≠ (((2 ^ 63 - 1 : Int)) : ℚ) := by
  have hr : float64OfInt (2 ^ 63 - 1) = 2 ^ 63 := by decide
  have hv : ∀ m : Registry,
      (SetCertificatesConfigured m (2 ^ 63 - 1)).CertificatesConfigured.value
        = ((float64OfInt (2 ^ 63 - 1) : Int) : ℚ) := fun _ => rfl
  refine ⟨?_, ?_, ?_⟩
  · rw [hv, hr]; norm_num
  · rw [hv, hr]; norm_num
  · rw [hv, hr]; norm_num

/-- C9, amended: the overwrite setters are idempotent. `SetReady(b)` applied
twice gives the state it gives applied once, and repeated `SetReady(true)`
leaves the flag true; `SetCertificatesConfigured(n)` applied twice gives the
registry, and so the gauge value, it gives applied once; that value is the
float64 conversion of `n`, which is `n` itself for every `n` up to `2 ^ 53` in
magnitude (7 stays 7). -/
theorem setters_idempotent (s : HealthState) (b : Bool) (m : Registry) (n : Int) :
    SetReady (SetReady s b) b = SetReady s b ∧
    (SetReady (SetReady s true) true).ready = true ∧
    SetCertificatesConfigured (SetCertificatesConfigured m n) n
      = SetCertificatesConfigured m n ∧
    (SetCertificatesConfigured (SetCertificatesConfigured m n) n).CertificatesConfigured.value
      = (SetCertificatesConfigured m n).CertificatesConfigured.value ∧
    (SetCertificatesConfigured (SetCertificatesConfigured m n) n).CertificatesConfigured.value
      = (float64OfInt n : ℚ) ∧
    (-(2 ^ 53) ≤ n → n ≤ 2 ^ 53 →
      (SetCertificatesConfigured (SetCertificatesConfigured m n)
        n).CertificatesConfigured.value = (n : ℚ)) ∧
    (SetCertificatesConfigured (SetCertificatesConfigured m 7) 7).CertificatesConfigured.value
      = 7 := by
  refine ⟨rfl, rfl, rfl, rfl, rfl, ?_, ?_⟩
  · intro hlo hhi
    show ((float64OfInt n : Int) : ℚ) = (n : ℚ)
    rw [float64OfInt_exact n hlo hhi]
  · show ((float64OfInt 7 : Int) : ℚ) = 7
    rw [float64OfInt_exact 7 (by decide) (by decide)]
    norm_num

/-- An instance of `setters_idempotent`: a count of 250 set twice on a registry
that held 7 reads 250. -/
theorem setters_idempotent_witness :
    (-(2 ^ 53) : Int) ≤ 250 ∧ (250 : Int) ≤ 2 ^ 53 ∧
    (SetCertificatesConfigured
        (SetCertificatesConfigured (SetCertificatesConfigured Registry.init 7) 250)
        250).CertificatesConfigured.value = ((250 : Int) : ℚ) :=
  ⟨by decide, by decide,
   (setters_idempotent HealthState.init true (SetCertificatesConfigured Registry.init 7)
      250).2.2.2.2.2.1 (by decide) (by decide)⟩

example : (livezHandler HealthState.init 5 6).status = 503 := by decide
example : (livezHandler (RecordScan HealthState.init 5) (5 + 10 * Minute) 6).status = 200 := by decide
example : (livezHandler (RecordScan HealthState.init 5) (6 + 10 * Minute) 6).status = 503 := by decide

end CwAgent
